import Mathlib

/-!
# Verification of the wave-monitoring core

Shallow embedding of the monitoring-and-escalation core of the `wave`
repository: the severity classifier (`classify_main_style`), the live
sampling loop's tsunami/routine alert logic
(`ombak_dashboard_streamlit.py`, TAB_LIVE), the stream reconnect logic,
the earthquake alert check (`earthquake_bmkg.py`) and the multi-channel
alert dispatcher (`notify_earthquake.py`).

Wall-clock timestamps are modelled as integers (seconds); the several
`time.time()` calls inside one loop iteration are modelled as a single
per-sample time.  Transport calls (Twilio WhatsApp/SMS) are modelled by
boolean/`ChannelOutcome` oracles saying whether the call raised.
-/

namespace Wave

/-! ## Severity classifier (`ombak_dashboard_streamlit.py`, lines 688-695) -/

/-- The five threshold lines `L` read from the sidebar configuration
(`GARIS_*_Y`), as passed to `classify_main_style`. -/
structure Levels where
  RENDAH : Int
  SEDANG : Int
  TINGGI : Int
  SANGAT_TINGGI : Int
  EXTREME : Int
  deriving DecidableEq, Repr

/-- BGR colour triple used alongside each status string. -/
abbrev Color := Int × Int × Int

/-- Embedding of `classify_main_style(peak_y, L)`: starts from the
baseline `("Tenang", ...)` and lets each satisfied `peak_y < L[...]`
check overwrite the pair, in source order RENDAH, SEDANG, TINGGI,
SANGAT_TINGGI, EXTREME. -/
def classify_main_style (peak_y : Int) (L : Levels) : String × Color :=
  let r : String × Color := ("Tenang", (144, 238, 144))
  let r := if peak_y < L.RENDAH then ("0,5 Meter (Rendah)", (0, 255, 0)) else r
  let r := if peak_y < L.SEDANG then ("1,25 Meter (Sedang)", (0, 255, 255)) else r
  let r := if peak_y < L.TINGGI then ("2,5 Meter (Tinggi)", (0, 165, 255)) else r
  let r := if peak_y < L.SANGAT_TINGGI then ("4 Meter (SANGAT TINGGI)", (0, 0, 255)) else r
  let r := if peak_y < L.EXTREME then ("> 4 Meter (EXTREME)", (0, 0, 139)) else r
  r

/-- The ordered severity levels, baseline first. -/
inductive Sev where
  | tenang
  | rendah
  | sedang
  | tinggi
  | sangatTinggi
  | extreme
  deriving DecidableEq, Repr

/-- Numeric rank of a severity level (larger = more severe). -/
def sevRank : Sev → Nat
  | .tenang => 0
  | .rendah => 1
  | .sedang => 2
  | .tinggi => 3
  | .sangatTinggi => 4
  | .extreme => 5

/-- The status string / colour the source associates with each level. -/
def sevStatus : Sev → String × Color
  | .tenang => ("Tenang", (144, 238, 144))
  | .rendah => ("0,5 Meter (Rendah)", (0, 255, 0))
  | .sedang => ("1,25 Meter (Sedang)", (0, 255, 255))
  | .tinggi => ("2,5 Meter (Tinggi)", (0, 165, 255))
  | .sangatTinggi => ("4 Meter (SANGAT TINGGI)", (0, 0, 255))
  | .extreme => ("> 4 Meter (EXTREME)", (0, 0, 139))

/-- The threshold the configuration assigns to each non-baseline level;
the baseline has no threshold condition. -/
def sevThreshold (L : Levels) : Sev → Option Int
  | .tenang => none
  | .rendah => some L.RENDAH
  | .sedang => some L.SEDANG
  | .tinggi => some L.TINGGI
  | .sangatTinggi => some L.SANGAT_TINGGI
  | .extreme => some L.EXTREME

/-- Classifier written from the spec's words ("thresholds are evaluated
from most-severe to least-severe; the first satisfied threshold
determines the level; if none are satisfied, the level is the baseline"),
to be compared with `classify_main_style`. -/
def specClassify (peak_y : Int) (L : Levels) : Sev :=
  if peak_y < L.EXTREME then .extreme
  else if peak_y < L.SANGAT_TINGGI then .sangatTinggi
  else if peak_y < L.TINGGI then .tinggi
  else if peak_y < L.SEDANG then .sedang
  else if peak_y < L.RENDAH then .rendah
  else .tenang

theorem classify_eq_spec (p : Int) (L : Levels) :
    classify_main_style p L = sevStatus (specClassify p L) := by
  simp only [classify_main_style, specClassify]
  split_ifs <;> simp_all [sevStatus]

theorem spec_most_severe (p : Int) (L : Levels) (s : Sev) (t : Int)
    (hs : sevThreshold L s = some t) (hp : p < t) :
    sevRank s ≤ sevRank (specClassify p L) := by
  simp only [specClassify]
  split_ifs <;> cases s <;> simp_all [sevThreshold, sevRank] <;> omega

theorem spec_baseline (p : Int) (L : Levels)
    (h : ∀ s t, sevThreshold L s = some t → ¬ p < t) :
    specClassify p L = .tenang := by
  unfold specClassify
  have hE := h .extreme L.EXTREME rfl
  have hS := h .sangatTinggi L.SANGAT_TINGGI rfl
  have hT := h .tinggi L.TINGGI rfl
  have hD := h .sedang L.SEDANG rfl
  have hR := h .rendah L.RENDAH rfl
  simp [hE, hS, hT, hD, hR]

theorem spec_satisfies_own (p : Int) (L : Levels)
    (h : specClassify p L ≠ .tenang) :
    ∃ t, sevThreshold L (specClassify p L) = some t ∧ p < t := by
  simp only [specClassify] at h ⊢
  split_ifs at h ⊢ <;> simp_all [sevThreshold]

/-- C1: `classify_main_style` is a total function (it is a Lean `def`,
hence deterministic and defined on every input), and for every raw value
and every threshold configuration it returns the status/colour of the
most severe level whose condition `peak_y < L[level]` holds: it agrees
with the most-severe-first spec classifier, the level it picks ranks at
least as high as every satisfied level, its own condition is satisfied
when it is not the baseline, and it is the baseline "Tenang" exactly
when no threshold condition holds. -/
theorem c1_classify_most_severe (p : Int) (L : Levels) :
    classify_main_style p L = sevStatus (specClassify p L) ∧
    (∀ s t, sevThreshold L s = some t → p < t →
      sevRank s ≤ sevRank (specClassify p L)) ∧
    ((∀ s t, sevThreshold L s = some t → ¬ p < t) → specClassify p L = .tenang) ∧
    (specClassify p L ≠ .tenang →
      ∃ t, sevThreshold L (specClassify p L) = some t ∧ p < t) := by
  exact ⟨classify_eq_spec p L,
    fun s t hs hp => spec_most_severe p L s t hs hp,
    fun h => spec_baseline p L h,
    fun h => spec_satisfies_own p L h⟩

/-- Witness for C1 at `peak_y = 3` and the default threshold ordering
`EXTREME=20 < SANGAT_TINGGI=40 < TINGGI=60 < SEDANG=80 < RENDAH=100`. -/
theorem c1_classify_most_severe_witness :
    classify_main_style 3 ⟨100, 80, 60, 40, 20⟩ =
      sevStatus (specClassify 3 ⟨100, 80, 60, 40, 20⟩) ∧
    sevRank .rendah ≤ sevRank (specClassify 3 ⟨100, 80, 60, 40, 20⟩) := by
  refine ⟨(c1_classify_most_severe 3 ⟨100, 80, 60, 40, 20⟩).1, ?_⟩
  exact (c1_classify_most_severe 3 ⟨100, 80, 60, 40, 20⟩).2.1 .rendah 100 rfl (by decide)

/-! ## The TAB_LIVE sampling loop's alert logic
(`ombak_dashboard_streamlit.py`, lines 812-998) -/

/-- Whether `needle` occurs at the start of `hay` (character lists). -/
def startsWithChars : List Char → List Char → Bool
  | [], _ => true
  | _ :: _, [] => false
  | c :: cs, d :: ds => c == d && startsWithChars cs ds

/-- Whether `needle` occurs anywhere in `hay` (character lists). -/
def containsChars (needle : List Char) : List Char → Bool
  | [] => needle.isEmpty
  | d :: ds => startsWithChars needle (d :: ds) || containsChars needle ds

/-- Python's `needle in hay` substring test on strings. -/
def strContains (hay needle : String) : Bool :=
  containsChars needle.data hay.data

/-- The sidebar configuration values the TAB_LIVE alert logic reads. -/
structure LiveConfig where
  enable_tsunami_alert : Bool
  SEND_WA_AVAILABLE : Bool
  SEND_SMS_AVAILABLE : Bool
  enable_wa : Bool
  enable_sms : Bool
  extreme_threshold : Nat
  alert_cooldown_min : Int
  wa_cooldown_sec : Int
  sms_cooldown_sec : Int
  sample_every_sec : Int
  deriving DecidableEq, Repr

/-- The mutable session state the loop keeps across iterations
(`st.session_state.extreme_count`, `last_twilio_alert`, `last_wa_alert`,
`last_sms_alert`, `last_log`). -/
structure LiveState where
  extreme_count : Nat
  last_twilio_alert : Int
  last_wa_alert : Int
  last_sms_alert : Int
  last_log : Int
  deriving DecidableEq, Repr

/-- One processed sample: its wall-clock time, its classified status
string, and oracles telling whether each transport call would complete
without raising. -/
structure SampleInput where
  t : Int
  status : String
  tsunami_send_ok : Bool
  wa_send_ok : Bool
  sms_send_ok : Bool
  deriving DecidableEq, Repr

/-- Embedding of `check_tsunami_alert_condition(extreme_count,
last_alert_time, cooldown_minutes)` (lines 767-779); the global
`extreme_threshold` and the `time.time()` call are passed explicitly. -/
def check_tsunami_alert_condition (extreme_threshold : Nat) (extreme_count : Nat)
    (last_alert_time : Int) (cooldown_minutes : Int) (now : Int) : Bool :=
  if extreme_count < extreme_threshold then false
  else if last_alert_time > 0 ∧ now - last_alert_time < cooldown_minutes * 60 then false
  else true

/-- Observable dispatch flags of one loop iteration: for each of the
tsunami-WhatsApp, routine-WhatsApp and routine-SMS channels, whether a
send was attempted and whether it completed without raising. -/
structure StepFlags where
  tsunami_attempted : Bool
  tsunami_sent : Bool
  wa_attempted : Bool
  wa_sent : Bool
  sms_attempted : Bool
  sms_sent : Bool
  deriving DecidableEq, Repr

/-- The tsunami-alert block of one iteration (lines 932-954): on an
EXTREME status the counter increments and, when enabled, available and
`check_tsunami_alert_condition` passes, a WhatsApp send is attempted;
`last_twilio_alert` is set only if the send does not raise.  On any
other status the counter resets to 0.  Returns (state, attempted, sent). -/
def tsunamiPart (cfg : LiveConfig) (st : LiveState) (inp : SampleInput) :
    LiveState × Bool × Bool :=
  if strContains inp.status "EXTREME" then
    let c := st.extreme_count + 1
    if cfg.enable_tsunami_alert && cfg.SEND_WA_AVAILABLE &&
        check_tsunami_alert_condition cfg.extreme_threshold c
          st.last_twilio_alert cfg.alert_cooldown_min inp.t then
      if inp.tsunami_send_ok then
        ({ st with extreme_count := c, last_twilio_alert := inp.t }, true, true)
      else
        ({ st with extreme_count := c }, true, false)
    else
      ({ st with extreme_count := c }, false, false)
  else
    ({ st with extreme_count := 0 }, false, false)

/-- The statuses that qualify for a routine alert (lines 967 and 981). -/
def routineStatuses : List String :=
  ["2,5 Meter (Tinggi)", "4 Meter (SANGAT TINGGI)", "> 4 Meter (EXTREME)"]

/-- The routine-alert block of one iteration (lines 961-997): when the
log-interval gate passes, each of the WhatsApp and SMS channels is gated
independently by its enable flag, module availability, the qualifying
status list and its own cooldown; a channel's `last_*_alert` clock is set
to `now` only if its send does not raise.  `last_log` is assigned `now`
on every iteration (line 997 sits outside the log-gate block).
Returns (state, waAttempted, waSent, smsAttempted, smsSent). -/
def routinePart (cfg : LiveConfig) (st : LiveState) (inp : SampleInput) :
    LiveState × Bool × Bool × Bool × Bool :=
  let logDue : Bool := decide (inp.t - st.last_log ≥ cfg.sample_every_sec)
  let qualifies : Bool := routineStatuses.contains inp.status
  let waAtt := logDue && cfg.enable_wa && cfg.SEND_WA_AVAILABLE && qualifies &&
    decide (inp.t - st.last_wa_alert ≥ cfg.wa_cooldown_sec)
  let waSent := waAtt && inp.wa_send_ok
  let smsAtt := logDue && cfg.enable_sms && cfg.SEND_SMS_AVAILABLE && qualifies &&
    decide (inp.t - st.last_sms_alert ≥ cfg.sms_cooldown_sec)
  let smsSent := smsAtt && inp.sms_send_ok
  ({ st with
      last_wa_alert := if waSent then inp.t else st.last_wa_alert,
      last_sms_alert := if smsSent then inp.t else st.last_sms_alert,
      last_log := inp.t },
   waAtt, waSent, smsAtt, smsSent)

/-- One full iteration of the TAB_LIVE alert logic: tsunami block then
routine block. -/
def liveStep (cfg : LiveConfig) (st : LiveState) (inp : SampleInput) :
    LiveState × StepFlags :=
  let ts := tsunamiPart cfg st inp
  let rt := routinePart cfg ts.1 inp
  (rt.1, ⟨ts.2.1, ts.2.2, rt.2.1, rt.2.2.1, rt.2.2.2.1, rt.2.2.2.2⟩)

/-- Iterating `liveStep` over a trace of samples, collecting the flags. -/
def runLive (cfg : LiveConfig) (st : LiveState) :
    List SampleInput → LiveState × List StepFlags
  | [] => (st, [])
  | inp :: rest =>
    let p := liveStep cfg st inp
    let q := runLive cfg p.1 rest
    (q.1, p.2 :: q.2)

/-- Whether a sample's status string contains "EXTREME", the loop's
streak test (line 935). -/
def isExtremeSample (inp : SampleInput) : Bool :=
  strContains inp.status "EXTREME"

/-- Length of the trailing run of EXTREME samples of a trace, written
from the claim's words: the number of samples at the end of the trace
whose status is EXTREME. -/
def trailingExtreme (trace : List SampleInput) : Nat :=
  ((trace.map isExtremeSample).reverse.takeWhile id).length

/-- Number of iterations of a trace on which a tsunami alert fired. -/
def tsunamiFireCount (flags : List StepFlags) : Nat :=
  flags.countP (fun f => f.tsunami_attempted)

theorem liveStep_extreme_count (cfg : LiveConfig) (st : LiveState) (inp : SampleInput) :
    (liveStep cfg st inp).1.extreme_count =
      if isExtremeSample inp = true then st.extreme_count + 1 else 0 := by
  simp only [liveStep, tsunamiPart, routinePart, isExtremeSample]
  split_ifs <;> simp_all

theorem liveStep_last_log (cfg : LiveConfig) (st : LiveState) (inp : SampleInput) :
    (liveStep cfg st inp).1.last_log = inp.t := by
  simp only [liveStep, tsunamiPart, routinePart]

theorem liveStep_tsunami_attempted (cfg : LiveConfig) (st : LiveState) (inp : SampleInput) :
    (liveStep cfg st inp).2.tsunami_attempted =
      (isExtremeSample inp && cfg.enable_tsunami_alert && cfg.SEND_WA_AVAILABLE &&
        check_tsunami_alert_condition cfg.extreme_threshold (st.extreme_count + 1)
          st.last_twilio_alert cfg.alert_cooldown_min inp.t) := by
  simp only [liveStep, tsunamiPart, routinePart, isExtremeSample]
  split_ifs <;> simp_all

theorem liveStep_tsunami_sent (cfg : LiveConfig) (st : LiveState) (inp : SampleInput) :
    (liveStep cfg st inp).2.tsunami_sent =
      ((liveStep cfg st inp).2.tsunami_attempted && inp.tsunami_send_ok) := by
  simp only [liveStep, tsunamiPart, routinePart]
  split_ifs <;> simp_all

theorem liveStep_last_twilio (cfg : LiveConfig) (st : LiveState) (inp : SampleInput) :
    (liveStep cfg st inp).1.last_twilio_alert =
      if (liveStep cfg st inp).2.tsunami_sent = true then inp.t
      else st.last_twilio_alert := by
  simp only [liveStep, tsunamiPart, routinePart]
  split_ifs <;> simp_all

theorem liveStep_wa_attempted (cfg : LiveConfig) (st : LiveState) (inp : SampleInput) :
    (liveStep cfg st inp).2.wa_attempted =
      (decide (inp.t - st.last_log ≥ cfg.sample_every_sec) && cfg.enable_wa &&
        cfg.SEND_WA_AVAILABLE && routineStatuses.contains inp.status &&
        decide (inp.t - st.last_wa_alert ≥ cfg.wa_cooldown_sec)) := by
  simp only [liveStep, tsunamiPart, routinePart]
  split_ifs <;> simp_all

theorem liveStep_wa_sent (cfg : LiveConfig) (st : LiveState) (inp : SampleInput) :
    (liveStep cfg st inp).2.wa_sent =
      ((liveStep cfg st inp).2.wa_attempted && inp.wa_send_ok) := by
  simp only [liveStep, tsunamiPart, routinePart]

theorem liveStep_last_wa (cfg : LiveConfig) (st : LiveState) (inp : SampleInput) :
    (liveStep cfg st inp).1.last_wa_alert =
      if (liveStep cfg st inp).2.wa_sent = true then inp.t
      else st.last_wa_alert := by
  simp only [liveStep, tsunamiPart, routinePart]
  split_ifs <;> simp_all

theorem liveStep_sms_attempted (cfg : LiveConfig) (st : LiveState) (inp : SampleInput) :
    (liveStep cfg st inp).2.sms_attempted =
      (decide (inp.t - st.last_log ≥ cfg.sample_every_sec) && cfg.enable_sms &&
        cfg.SEND_SMS_AVAILABLE && routineStatuses.contains inp.status &&
        decide (inp.t - st.last_sms_alert ≥ cfg.sms_cooldown_sec)) := by
  simp only [liveStep, tsunamiPart, routinePart]
  split_ifs <;> simp_all

theorem liveStep_sms_sent (cfg : LiveConfig) (st : LiveState) (inp : SampleInput) :
    (liveStep cfg st inp).2.sms_sent =
      ((liveStep cfg st inp).2.sms_attempted && inp.sms_send_ok) := by
  simp only [liveStep, tsunamiPart, routinePart]

theorem liveStep_last_sms (cfg : LiveConfig) (st : LiveState) (inp : SampleInput) :
    (liveStep cfg st inp).1.last_sms_alert =
      if (liveStep cfg st inp).2.sms_sent = true then inp.t
      else st.last_sms_alert := by
  simp only [liveStep, tsunamiPart, routinePart]
  split_ifs <;> simp_all

theorem runLive_extreme_count (cfg : LiveConfig) (st : LiveState)
    (trace : List SampleInput) :
    (runLive cfg st trace).1.extreme_count =
      (trace.map isExtremeSample).foldl
        (fun c b => if b then c + 1 else 0) st.extreme_count := by
  induction trace generalizing st with
  | nil => rfl
  | cons inp rest ih =>
    simp only [runLive, List.map_cons, List.foldl_cons]
    rw [ih, liveStep_extreme_count]

theorem ecFoldZero (l : List Bool) :
    l.foldl (fun c b => if b then c + 1 else 0) 0 =
      (l.reverse.takeWhile id).length := by
  induction l using List.reverseRecOn with
  | nil => rfl
  | append_singleton xs b ih =>
    cases b <;> simp [List.foldl_append, List.takeWhile_cons, ih]

/-- C3: per sample, the consecutive-critical counter increments by
exactly 1 on an EXTREME status and resets to exactly 0 otherwise; among
the classifier's possible outputs, "EXTREME" occurs in the status string
exactly for the top severity level; and starting the session at 0 the
counter after any trace equals the length of the trace's trailing run of
EXTREME samples. -/
theorem c3_extreme_count_trailing_run (cfg : LiveConfig) (st : LiveState)
    (inp : SampleInput) (trace : List SampleInput) :
    ((liveStep cfg st inp).1.extreme_count =
      if isExtremeSample inp = true then st.extreme_count + 1 else 0) ∧
    (∀ s : Sev, strContains (sevStatus s).1 "EXTREME" = decide (s = Sev.extreme)) ∧
    (st.extreme_count = 0 →
      (runLive cfg st trace).1.extreme_count = trailingExtreme trace) := by
  refine ⟨liveStep_extreme_count cfg st inp, ?_, ?_⟩
  · intro s; cases s <;> rfl
  · intro h0
    rw [runLive_extreme_count, h0, ecFoldZero, trailingExtreme]

/-- Witness for C3 on the trace EXTREME, EXTREME, Tenang, EXTREME,
EXTREME: the counter ends at 2, the trailing-run length. -/
theorem c3_extreme_count_trailing_run_witness :
    trailingExtreme
        [⟨1, "> 4 Meter (EXTREME)", true, true, true⟩,
         ⟨2, "> 4 Meter (EXTREME)", true, true, true⟩,
         ⟨3, "Tenang", true, true, true⟩,
         ⟨4, "> 4 Meter (EXTREME)", true, true, true⟩,
         ⟨5, "> 4 Meter (EXTREME)", true, true, true⟩] = 2 ∧
    (runLive ⟨false, false, false, false, false, 12, 30, 300, 300, 2⟩
        ⟨0, 0, 0, 0, 0⟩
        [⟨1, "> 4 Meter (EXTREME)", true, true, true⟩,
         ⟨2, "> 4 Meter (EXTREME)", true, true, true⟩,
         ⟨3, "Tenang", true, true, true⟩,
         ⟨4, "> 4 Meter (EXTREME)", true, true, true⟩,
         ⟨5, "> 4 Meter (EXTREME)", true, true, true⟩]).1.extreme_count =
      trailingExtreme
        [⟨1, "> 4 Meter (EXTREME)", true, true, true⟩,
         ⟨2, "> 4 Meter (EXTREME)", true, true, true⟩,
         ⟨3, "Tenang", true, true, true⟩,
         ⟨4, "> 4 Meter (EXTREME)", true, true, true⟩,
         ⟨5, "> 4 Meter (EXTREME)", true, true, true⟩] := by
  refine ⟨by decide, ?_⟩
  exact (c3_extreme_count_trailing_run ⟨false, false, false, false, false, 12, 30, 300, 300, 2⟩
    ⟨0, 0, 0, 0, 0⟩ ⟨1, "Tenang", true, true, true⟩ _).2.2 rfl

/-- C9: routine and escalation alerts are state-independent: the routine
block of one iteration never changes the escalation counter or the
escalation cooldown clock, and the tsunami block never changes the
routine cooldown clocks or the log clock, whatever fired. -/
theorem c9_alert_frame_independence (cfg : LiveConfig) (st : LiveState)
    (inp : SampleInput) :
    ((routinePart cfg st inp).1.extreme_count = st.extreme_count ∧
     (routinePart cfg st inp).1.last_twilio_alert = st.last_twilio_alert) ∧
    ((tsunamiPart cfg st inp).1.last_wa_alert = st.last_wa_alert ∧
     (tsunamiPart cfg st inp).1.last_sms_alert = st.last_sms_alert ∧
     (tsunamiPart cfg st inp).1.last_log = st.last_log) := by
  constructor
  · constructor <;> simp only [routinePart]
  · refine ⟨?_, ?_, ?_⟩ <;> (simp only [tsunamiPart]; split_ifs <;> rfl)

/-- C6: for each channel, the per-channel last-alert clock after one
iteration equals the sample time exactly when that channel's send
completed without raising, and is otherwise left unchanged; a send
counts as completed exactly when it was attempted and the transport did
not raise. -/
theorem c6_timestamp_only_on_success (cfg : LiveConfig) (st : LiveState)
    (inp : SampleInput) :
    ((liveStep cfg st inp).2.tsunami_sent =
        ((liveStep cfg st inp).2.tsunami_attempted && inp.tsunami_send_ok) ∧
     (liveStep cfg st inp).1.last_twilio_alert =
        (if (liveStep cfg st inp).2.tsunami_sent = true then inp.t
         else st.last_twilio_alert)) ∧
    ((liveStep cfg st inp).2.wa_sent =
        ((liveStep cfg st inp).2.wa_attempted && inp.wa_send_ok) ∧
     (liveStep cfg st inp).1.last_wa_alert =
        (if (liveStep cfg st inp).2.wa_sent = true then inp.t
         else st.last_wa_alert)) ∧
    ((liveStep cfg st inp).2.sms_sent =
        ((liveStep cfg st inp).2.sms_attempted && inp.sms_send_ok) ∧
     (liveStep cfg st inp).1.last_sms_alert =
        (if (liveStep cfg st inp).2.sms_sent = true then inp.t
         else st.last_sms_alert)) :=
  ⟨⟨liveStep_tsunami_sent cfg st inp, liveStep_last_twilio cfg st inp⟩,
   ⟨liveStep_wa_sent cfg st inp, liveStep_last_wa cfg st inp⟩,
   ⟨liveStep_sms_sent cfg st inp, liveStep_last_sms cfg st inp⟩⟩

/-! ## C2: escalation refire is cooldown-gated, not streak-gated -/

/-- The status string of the top severity level. -/
def extremeStatus : String := "> 4 Meter (EXTREME)"

/-- An EXTREME sample at time `t` whose sends all succeed. -/
def mkExtreme (t : Int) : SampleInput := ⟨t, extremeStatus, true, true, true⟩

/-- Configuration for the C2 scenario: tsunami alerts enabled, WhatsApp
module available, escalation threshold `N = 5` EXTREMEs, escalation
cooldown 5 minutes (both at the lower end of the sidebar's ranges). -/
def cfgC2 : LiveConfig := ⟨true, true, false, false, false, 5, 5, 300, 300, 2⟩

/-- Fresh session state: zero counter, all clocks at 0. -/
def st0 : LiveState := ⟨0, 0, 0, 0, 0⟩

/-- A single unbroken streak of EXTREME samples whose last sample comes
301 s after the fifth one. -/
def traceC2 : List SampleInput :=
  [mkExtreme 1, mkExtreme 2, mkExtreme 3, mkExtreme 4, mkExtreme 5, mkExtreme 306]

/-- Counterexample to C2: `traceC2` is one single streak of consecutive
EXTREME samples (it never resets), yet the tsunami alert fires twice on
it — once when the count reaches `N = 5` and again on a later sample of
the same streak, because `check_tsunami_alert_condition` only gates
refiring on the cooldown, not on the streak having already fired. -/
theorem c2_counterexample :
    traceC2.all isExtremeSample = true ∧
    ¬ tsunamiFireCount (runLive cfgC2 st0 traceC2).2 ≤ 1 := by decide

/-- C2 amended: within a streak, the escalation alert fires on a sample
reaching count `≥ N` when the escalation cooldown has elapsed (or no
alert was sent yet), and it does not fire again on subsequent samples of
the same streak until the cooldown `alert_cooldown_min * 60` seconds has
elapsed since the last fired alert — not until the streak resets. -/
theorem c2_escalation_cooldown_gated (cfg : LiveConfig) (st : LiveState)
    (inp : SampleInput) :
    (st.last_twilio_alert > 0 →
      inp.t - st.last_twilio_alert < cfg.alert_cooldown_min * 60 →
      (liveStep cfg st inp).2.tsunami_attempted = false) ∧
    (isExtremeSample inp = true → cfg.enable_tsunami_alert = true →
      cfg.SEND_WA_AVAILABLE = true →
      cfg.extreme_threshold ≤ st.extreme_count + 1 →
      (st.last_twilio_alert ≤ 0 ∨
        cfg.alert_cooldown_min * 60 ≤ inp.t - st.last_twilio_alert) →
      (liveStep cfg st inp).2.tsunami_attempted = true) := by
  constructor
  · intro hpos hcool
    rw [liveStep_tsunami_attempted, check_tsunami_alert_condition]
    split_ifs with h1 h2
    · simp
    · simp
    · exact absurd ⟨hpos, hcool⟩ h2
  · intro hx he ha hth hcool
    rw [liveStep_tsunami_attempted, check_tsunami_alert_condition]
    split_ifs with h1 h2
    · omega
    · rcases h2 with ⟨hp, hd⟩
      rcases hcool with hc | hc <;> omega
    · simp [hx, he, ha]

/-- Witness for the amended C2: with threshold 5 and cooldown 5 min, a
sample 40 s after a fired alert does not refire, while a fifth
consecutive EXTREME with no previous alert fires. -/
theorem c2_escalation_cooldown_gated_witness :
    (liveStep cfgC2 ⟨4, 10, 0, 0, 0⟩ (mkExtreme 50)).2.tsunami_attempted = false ∧
    (liveStep cfgC2 ⟨4, 0, 0, 0, 0⟩ (mkExtreme 1)).2.tsunami_attempted = true := by
  constructor
  · exact (c2_escalation_cooldown_gated cfgC2 ⟨4, 10, 0, 0, 0⟩ (mkExtreme 50)).1
      (by decide) (by decide)
  · exact (c2_escalation_cooldown_gated cfgC2 ⟨4, 0, 0, 0, 0⟩ (mkExtreme 1)).2
      (by decide) rfl rfl (by decide) (Or.inl (by decide))

/-! ## C8: routine cooldown of 300 s, samples 100 s vs 301 s apart -/

/-- C8: with both routine cooldowns at 300 s, after a sample on which
both routine channels dispatched successfully, a second qualifying
sample 100 s later attempts neither channel, while a second qualifying
sample 301 s later (with the enable flags set, the modules available and
the log interval at most 301 s) attempts both channels. -/
theorem c8_routine_cooldown_300 (cfg : LiveConfig) (st : LiveState)
    (inp₁ inp₂ : SampleInput)
    (hwa : cfg.wa_cooldown_sec = 300) (hsms : cfg.sms_cooldown_sec = 300)
    (h1wa : (liveStep cfg st inp₁).2.wa_sent = true)
    (h1sms : (liveStep cfg st inp₁).2.sms_sent = true) :
    (inp₂.t = inp₁.t + 100 →
      (liveStep cfg (liveStep cfg st inp₁).1 inp₂).2.wa_attempted = false ∧
      (liveStep cfg (liveStep cfg st inp₁).1 inp₂).2.sms_attempted = false) ∧
    (inp₂.t = inp₁.t + 301 → cfg.sample_every_sec ≤ 301 →
      cfg.enable_wa = true → cfg.enable_sms = true →
      cfg.SEND_WA_AVAILABLE = true → cfg.SEND_SMS_AVAILABLE = true →
      routineStatuses.contains inp₂.status = true →
      (liveStep cfg (liveStep cfg st inp₁).1 inp₂).2.wa_attempted = true ∧
      (liveStep cfg (liveStep cfg st inp₁).1 inp₂).2.sms_attempted = true) := by
  have hlw : (liveStep cfg st inp₁).1.last_wa_alert = inp₁.t := by
    rw [liveStep_last_wa, if_pos h1wa]
  have hls : (liveStep cfg st inp₁).1.last_sms_alert = inp₁.t := by
    rw [liveStep_last_sms, if_pos h1sms]
  have hll : (liveStep cfg st inp₁).1.last_log = inp₁.t :=
    liveStep_last_log cfg st inp₁
  constructor
  · intro ht
    constructor
    · rw [liveStep_wa_attempted, hlw, hll, ht, hwa]
      simp
    · rw [liveStep_sms_attempted, hls, hll, ht, hsms]
      simp
  · intro ht hse hew hes haw has hq
    constructor
    · rw [liveStep_wa_attempted, hlw, hll, ht, hwa, hew, haw, hq]
      simp
      omega
    · rw [liveStep_sms_attempted, hls, hll, ht, hsms, hes, has, hq]
      simp
      omega

/-- Configuration for the C8 witness: both routine channels enabled and
available, cooldowns 300 s, log interval 2 s. -/
def cfgC8 : LiveConfig := ⟨false, true, true, true, true, 12, 30, 300, 300, 2⟩

/-- A qualifying ("2,5 Meter (Tinggi)") sample at time `t` whose sends
all succeed. -/
def mkTinggi (t : Int) : SampleInput := ⟨t, "2,5 Meter (Tinggi)", true, true, true⟩

/-- Witness for C8: first qualifying sample at t = 1000 dispatches; a
second at t = 1100 attempts no channel; a second at t = 1301 attempts
both. -/
theorem c8_routine_cooldown_300_witness :
    ((liveStep cfgC8 (liveStep cfgC8 st0 (mkTinggi 1000)).1 (mkTinggi 1100)).2.wa_attempted = false ∧
     (liveStep cfgC8 (liveStep cfgC8 st0 (mkTinggi 1000)).1 (mkTinggi 1100)).2.sms_attempted = false) ∧
    ((liveStep cfgC8 (liveStep cfgC8 st0 (mkTinggi 1000)).1 (mkTinggi 1301)).2.wa_attempted = true ∧
     (liveStep cfgC8 (liveStep cfgC8 st0 (mkTinggi 1000)).1 (mkTinggi 1301)).2.sms_attempted = true) := by
  constructor
  · exact (c8_routine_cooldown_300 cfgC8 st0 (mkTinggi 1000) (mkTinggi 1100)
      rfl rfl (by decide) (by decide)).1 (by decide)
  · exact (c8_routine_cooldown_300 cfgC8 st0 (mkTinggi 1000) (mkTinggi 1301)
      rfl rfl (by decide) (by decide)).2 (by decide) (by decide) rfl rfl rfl rfl (by decide)

/-! ## C7: stream stall handling and reconnect
(`ombak_dashboard_streamlit.py`, lines 852-896) -/

/-- The loop state the reconnect logic keeps
(`st.session_state.last_successful_frame`, `reconnect_notified`). -/
structure ConnState where
  last_successful_frame : Int
  reconnect_notified : Bool
  deriving DecidableEq, Repr

/-- One `cap.read()` outcome at wall-clock time `t`: a frame, or a
failed read together with an oracle saying whether the single
`smart_rtsp_connect(rtsp_url, max_retries=1, timeout=3)` attempt the
loop would make succeeds. -/
inductive ReadEvent where
  | frame (t : Int)
  | failed (t : Int) (reconnect_ok : Bool)
  deriving DecidableEq, Repr

/-- What one iteration of the read loop did about the connection. -/
inductive ConnAction where
  | processed
  | silentRetry
  | reconnected
  | reconnectFailedWait
  deriving DecidableEq, Repr

/-- How many reconnect attempts an iteration performed. -/
def reconnectAttempts : ConnAction → Nat
  | .reconnected => 1
  | .reconnectFailedWait => 1
  | _ => 0

/-- The sleep the loop takes after the action before any further
attempt (`time.sleep(30)` after a failed reconnect). -/
def waitAfter : ConnAction → Nat
  | .reconnectFailedWait => 30
  | _ => 0

/-- One iteration of the connection-monitoring logic: a successful read
updates `last_successful_frame` and clears the notified flag; a failed
read is silently skipped while less than 60 s (`minutes_without_frame
>= 1.0`) has passed since the last successful frame, and otherwise tears
the connection down and makes one reconnect attempt, resetting the stall
clock on success and sleeping 30 s on failure. -/
def streamStep (st : ConnState) (e : ReadEvent) : ConnState × ConnAction :=
  match e with
  | .frame t => (⟨t, false⟩, .processed)
  | .failed t ok =>
    if t - st.last_successful_frame ≥ 60 then
      if ok then (⟨t, false⟩, .reconnected)
      else ({ st with reconnect_notified := true }, .reconnectFailedWait)
    else (st, .silentRetry)

/-- Iterating `streamStep`, collecting the actions. -/
def runStream (st : ConnState) : List ReadEvent → ConnState × List ConnAction
  | [] => (st, [])
  | e :: rest =>
    let p := streamStep st e
    let q := runStream p.1 rest
    (q.1, p.2 :: q.2)

/-- C7: a run of failed reads all within 60 s of the last successful
frame leaves the connection state untouched and performs zero reconnect
attempts (every iteration silently retries); a failed read at least 60 s
after the last successful frame performs exactly one reconnect attempt,
which on success resets the stall clock and on failure is followed by a
30-second sleep before any further attempt. -/
theorem c7_stall_window_reconnect (st : ConnState) (t : Int) (ok : Bool)
    (evs : List (Int × Bool)) :
    ((∀ p ∈ evs, p.1 - st.last_successful_frame < 60) →
      runStream st (evs.map fun p => .failed p.1 p.2) =
        (st, evs.map fun _ => .silentRetry)) ∧
    (t - st.last_successful_frame ≥ 60 →
      reconnectAttempts (streamStep st (.failed t ok)).2 = 1 ∧
      (ok = true → streamStep st (.failed t ok) = (⟨t, false⟩, .reconnected)) ∧
      (ok = false →
        (streamStep st (.failed t ok)).2 = .reconnectFailedWait ∧
        waitAfter (streamStep st (.failed t ok)).2 = 30 ∧
        (streamStep st (.failed t ok)).1.last_successful_frame =
          st.last_successful_frame)) := by
  constructor
  · intro hall
    induction evs with
    | nil => rfl
    | cons p rest ih =>
      have hp := hall p (List.mem_cons_self p rest)
      have hrest : ∀ q ∈ rest, q.1 - st.last_successful_frame < 60 :=
        fun q hq => hall q (List.mem_cons_of_mem p hq)
      simp only [List.map_cons, runStream, streamStep, if_neg (by omega : ¬ p.1 - st.last_successful_frame ≥ 60)]
      simp [ih hrest]
  · intro hstall
    refine ⟨?_, ?_, ?_⟩
    · simp only [streamStep, if_pos hstall]
      cases ok <;> rfl
    · intro hok; subst hok
      simp [streamStep, if_pos hstall]
    · intro hok; subst hok
      simp only [streamStep, if_pos hstall]
      exact ⟨rfl, rfl, rfl⟩

/-- Witness for C7: from a last successful frame at t = 0, failed reads
at t = 10, 30, 59 are all silent retries, and a failed read at t = 61
with a failing reconnect performs one attempt and a 30 s wait. -/
theorem c7_stall_window_reconnect_witness :
    runStream ⟨0, false⟩
        [.failed 10 false, .failed 30 false, .failed 59 false] =
      (⟨0, false⟩, [.silentRetry, .silentRetry, .silentRetry]) ∧
    reconnectAttempts (streamStep ⟨0, false⟩ (.failed 61 false)).2 = 1 ∧
    waitAfter (streamStep ⟨0, false⟩ (.failed 61 false)).2 = 30 := by
  refine ⟨?_, ?_, ?_⟩
  · exact (c7_stall_window_reconnect ⟨0, false⟩ 61 false
      [(10, false), (30, false), (59, false)]).1 (by decide)
  · exact ((c7_stall_window_reconnect ⟨0, false⟩ 61 false []).2 (by decide)).1
  · exact (((c7_stall_window_reconnect ⟨0, false⟩ 61 false []).2
      (by decide)).2.2 rfl).2.1

/-! ## Earthquake alert check (`earthquake_bmkg.py`, lines 180-231) -/

/-- The parsed earthquake fields the alert check reads
(`parse_earthquake_data` output; only the magnitude is classified). -/
structure ParsedQuake where
  magnitude : ℚ
  wilayah : String
  potensi_tsunami : String
  deriving DecidableEq, Repr

/-- The fields of the dict `check_earthquake_alert` returns that the
claims are about: `alert` and `alert_level` (the latter is absent when
no data was fetched or parsing failed). -/
structure EqCheckResult where
  alert : Bool
  alert_level : Option String
  deriving DecidableEq, Repr

/-- Embedding of `BMKGEarthquakeAPI.check_earthquake_alert(
magnitude_threshold, tsunami_threshold)`.  `fetched = none` covers both
a failed fetch and a failed parse (both return `alert: False` with no
`alert_level`).  For a parsed event, `alert_level` is TSUNAMI / EARTHQUAKE /
NONE by comparing the magnitude against the two thresholds in that
order, while `alert` compares the magnitude against
`magnitude_threshold` only. -/
def check_earthquake_alert (magnitude_threshold tsunami_threshold : ℚ)
    (fetched : Option ParsedQuake) : EqCheckResult :=
  match fetched with
  | none => ⟨false, none⟩
  | some d =>
    let alert_level :=
      if d.magnitude ≥ tsunami_threshold then "TSUNAMI"
      else if d.magnitude ≥ magnitude_threshold then "EARTHQUAKE"
      else "NONE"
    ⟨decide (d.magnitude ≥ magnitude_threshold), some alert_level⟩

/-- How many of a sequence of polls raise an alert: the earthquake tab
runs `check_earthquake_alert` once per refresh on the latest fetched
event, with no state carried between polls. -/
def pollAlertCount (magnitude_threshold tsunami_threshold : ℚ)
    (polls : List (Option ParsedQuake)) : Nat :=
  (polls.map (check_earthquake_alert magnitude_threshold tsunami_threshold)).countP
    (fun r => r.alert)

/-- C10: for every successfully fetched and parsed event, `alert` equals
`magnitude ≥ magnitude_threshold` and does not depend on
`tsunami_threshold`; hence with `tsunami_threshold <
magnitude_threshold`, an event with `tsunami_threshold ≤ magnitude <
magnitude_threshold` gets `alert_level = "TSUNAMI"` but `alert = false`. -/
theorem c10_alert_ignores_tsunami_threshold
    (mth tth : ℚ) (d : ParsedQuake) :
    (check_earthquake_alert mth tth (some d)).alert = decide (d.magnitude ≥ mth) ∧
    (∀ tth' : ℚ, (check_earthquake_alert mth tth (some d)).alert =
      (check_earthquake_alert mth tth' (some d)).alert) ∧
    (tth ≤ d.magnitude → d.magnitude < mth →
      (check_earthquake_alert mth tth (some d)).alert_level = some "TSUNAMI" ∧
      (check_earthquake_alert mth tth (some d)).alert = false) := by
  refine ⟨rfl, fun tth' => rfl, fun h1 h2 => ?_⟩
  simp only [check_earthquake_alert]
  constructor
  · rw [if_pos (by exact h1)]
  · simpa using h2

/-- Witness for C10: thresholds misconfigured as `magnitude_threshold =
6`, `tsunami_threshold = 4`; an event of magnitude 5 is labelled
TSUNAMI with `alert = false`. -/
theorem c10_alert_ignores_tsunami_threshold_witness :
    (check_earthquake_alert 6 4 (some ⟨5, "Laut Banda", ""⟩)).alert_level =
      some "TSUNAMI" ∧
    (check_earthquake_alert 6 4 (some ⟨5, "Laut Banda", ""⟩)).alert = false :=
  (c10_alert_ignores_tsunami_threshold 6 4 ⟨5, "Laut Banda", ""⟩).2.2
    (by norm_num) (by norm_num)

/-- An alert-worthy event used in the C4 scenario. -/
def quakeC4 : ParsedQuake := ⟨6, "Laut Banda, Maluku", "Tidak berpotensi tsunami"⟩

/-- Counterexample to C4: polling the identical event twice (the latest
event unchanged between the two polls) produces two alerts, not at most
one — neither `check_earthquake_alert` nor the earthquake tab keeps any
record of the last event alerted on. -/
theorem c4_counterexample :
    ¬ pollAlertCount 5 6 [some quakeC4, some quakeC4] ≤ 1 := by decide

/-- C4 amended: the earthquake alert check is stateless and
deterministic — it tracks no last-alerted-event identity — so polling
the same unchanged event twice re-alerts both times: whenever one poll
of an event alerts, two consecutive polls of that unchanged event
produce exactly two alerts. -/
theorem c4_no_deduplication (mth tth : ℚ) (d : ParsedQuake)
    (h : (check_earthquake_alert mth tth (some d)).alert = true) :
    pollAlertCount mth tth [some d, some d] = 2 := by
  simp [pollAlertCount, List.countP_cons, h]

/-- Witness for the amended C4 at thresholds 5/6 and a magnitude-6
event. -/
theorem c4_no_deduplication_witness :
    pollAlertCount 5 6 [some quakeC4, some quakeC4] = 2 :=
  c4_no_deduplication 5 6 quakeC4 (by decide)

/-! ## Multi-channel dispatcher (`notify_earthquake.py`, lines 147-210) -/

/-- Outcome of one channel's send helper as seen by the dispatcher: the
returned SID list, or an exception reaching the dispatcher's per-channel
`except` branch.  (The helpers themselves catch their own exceptions and
return `[]`; `raised` models the dispatcher's defensive handler.) -/
inductive ChannelOutcome where
  | ok (sids : List String)
  | raised (msg : String)
  deriving DecidableEq, Repr

/-- The result dict of `send_earthquake_alert`. -/
structure EqAlertResult where
  success : Bool
  whatsapp_sent : Bool
  sms_sent : Bool
  whatsapp_sids : List String
  sms_sids : List String
  errors : List String
  deriving DecidableEq, Repr

/-- The WhatsApp block of the dispatcher (lines 178-188): attempted only
when the channel is enabled and the module importable; a non-empty SID
list marks the channel sent, an empty list or an exception appends an
error message. -/
def waDispatchStep (enable_whatsapp SEND_WA_AVAILABLE : Bool)
    (out : ChannelOutcome) (r : EqAlertResult) : EqAlertResult :=
  if enable_whatsapp && SEND_WA_AVAILABLE then
    match out with
    | .ok sids =>
      if sids.isEmpty then
        { r with errors := r.errors ++ ["Gagal mengirim alert gempa WhatsApp"] }
      else
        { r with whatsapp_sent := true, whatsapp_sids := sids }
    | .raised e => { r with errors := r.errors ++ ["Error WhatsApp: " ++ e] }
  else r

/-- The SMS block of the dispatcher (lines 191-201), same shape. -/
def smsDispatchStep (enable_sms SEND_SMS_AVAILABLE : Bool)
    (out : ChannelOutcome) (r : EqAlertResult) : EqAlertResult :=
  if enable_sms && SEND_SMS_AVAILABLE then
    match out with
    | .ok sids =>
      if sids.isEmpty then
        { r with errors := r.errors ++ ["Gagal mengirim alert gempa SMS"] }
      else
        { r with sms_sent := true, sms_sids := sids }
    | .raised e => { r with errors := r.errors ++ ["Error SMS: " ++ e] }
  else r

/-- Embedding of `send_earthquake_alert`: starts from the all-false
result, runs the WhatsApp block then the SMS block (each in its own
try/except, so the function itself never raises — it is total by
construction), then sets `success = whatsapp_sent or sms_sent`. -/
def send_earthquake_alert (enable_whatsapp enable_sms : Bool)
    (SEND_WA_AVAILABLE SEND_SMS_AVAILABLE : Bool)
    (waOut smsOut : ChannelOutcome) : EqAlertResult :=
  let r0 : EqAlertResult := ⟨false, false, false, [], [], []⟩
  let r1 := waDispatchStep enable_whatsapp SEND_WA_AVAILABLE waOut r0
  let r2 := smsDispatchStep enable_sms SEND_SMS_AVAILABLE smsOut r1
  { r2 with success := r2.whatsapp_sent || r2.sms_sent }

theorem waStep_frame (ew aw : Bool) (out : ChannelOutcome) (r : EqAlertResult) :
    (waDispatchStep ew aw out r).sms_sent = r.sms_sent ∧
    (waDispatchStep ew aw out r).sms_sids = r.sms_sids := by
  cases out <;> simp only [waDispatchStep] <;> split_ifs <;> exact ⟨rfl, rfl⟩

theorem smsStep_frame (es as : Bool) (out : ChannelOutcome) (r : EqAlertResult) :
    (smsDispatchStep es as out r).whatsapp_sent = r.whatsapp_sent ∧
    (smsDispatchStep es as out r).whatsapp_sids = r.whatsapp_sids := by
  cases out <;> simp only [smsDispatchStep] <;> split_ifs <;> exact ⟨rfl, rfl⟩

theorem smsStep_errors_mono (es as : Bool) (out : ChannelOutcome)
    (r : EqAlertResult) (e : String) (he : e ∈ r.errors) :
    e ∈ (smsDispatchStep es as out r).errors := by
  cases out <;> simp only [smsDispatchStep] <;> split_ifs <;> simp [he]

theorem smsStep_congr (es as : Bool) (out : ChannelOutcome)
    (r r' : EqAlertResult)
    (h1 : r.sms_sent = r'.sms_sent) (h2 : r.sms_sids = r'.sms_sids) :
    (smsDispatchStep es as out r).sms_sent =
      (smsDispatchStep es as out r').sms_sent ∧
    (smsDispatchStep es as out r).sms_sids =
      (smsDispatchStep es as out r').sms_sids := by
  cases out <;> simp only [smsDispatchStep] <;> split_ifs <;> simp_all

/-- C5: the dispatcher's channels are attempted independently — the SMS
part of the result does not depend on the WhatsApp outcome and vice
versa; an enabled channel whose helper raises (or returns no SID) has
its failure recorded in `errors` while the other channel's success still
stands; and `success` is true exactly when at least one channel was
marked sent.  (`send_earthquake_alert` is a total Lean function: no
exception escapes it.) -/
theorem c5_dispatch_independent_channels
    (ew es aw as : Bool) (waOut smsOut : ChannelOutcome) :
    ((send_earthquake_alert ew es aw as waOut smsOut).success =
      ((send_earthquake_alert ew es aw as waOut smsOut).whatsapp_sent ||
       (send_earthquake_alert ew es aw as waOut smsOut).sms_sent)) ∧
    (∀ waOut' : ChannelOutcome,
      (send_earthquake_alert ew es aw as waOut smsOut).sms_sent =
        (send_earthquake_alert ew es aw as waOut' smsOut).sms_sent ∧
      (send_earthquake_alert ew es aw as waOut smsOut).sms_sids =
        (send_earthquake_alert ew es aw as waOut' smsOut).sms_sids) ∧
    (∀ smsOut' : ChannelOutcome,
      (send_earthquake_alert ew es aw as waOut smsOut).whatsapp_sent =
        (send_earthquake_alert ew es aw as waOut smsOut').whatsapp_sent ∧
      (send_earthquake_alert ew es aw as waOut smsOut).whatsapp_sids =
        (send_earthquake_alert ew es aw as waOut smsOut').whatsapp_sids) ∧
    (∀ e : String, ew = true → aw = true → waOut = .raised e →
      ("Error WhatsApp: " ++ e) ∈ (send_earthquake_alert ew es aw as waOut smsOut).errors) ∧
    (∀ e : String, es = true → as = true → smsOut = .raised e →
      ("Error SMS: " ++ e) ∈ (send_earthquake_alert ew es aw as waOut smsOut).errors) ∧
    (∀ sids : List String, es = true → as = true → smsOut = .ok sids →
      sids ≠ [] → (send_earthquake_alert ew es aw as waOut smsOut).sms_sent = true ∧
      (send_earthquake_alert ew es aw as waOut smsOut).success = true) := by
  refine ⟨rfl, ?_, ?_, ?_, ?_, ?_⟩
  · intro waOut'
    have h2 := waStep_frame ew aw waOut ⟨false, false, false, [], [], []⟩
    have h2' := waStep_frame ew aw waOut' ⟨false, false, false, [], [], []⟩
    simp only [send_earthquake_alert]
    exact smsStep_congr es as smsOut _ _
      (h2.1.trans h2'.1.symm) (h2.2.trans h2'.2.symm)
  · intro smsOut'
    simp only [send_earthquake_alert]
    exact ⟨(smsStep_frame es as smsOut _).1.trans
        ((smsStep_frame es as smsOut' _).1.symm),
      (smsStep_frame es as smsOut _).2.trans
        ((smsStep_frame es as smsOut' _).2.symm)⟩
  · intro e hew haw hout; subst hout
    simp only [send_earthquake_alert]
    apply smsStep_errors_mono
    simp [waDispatchStep, hew, haw]
  · intro e hes has hout; subst hout
    simp only [send_earthquake_alert, smsDispatchStep, hes, has]
    simp
  · intro sids hes has hout hne; subst hout
    simp only [send_earthquake_alert, smsDispatchStep, hes, has]
    simp [hne]

/-- Witness for C5: WhatsApp enabled but raising, SMS enabled and
succeeding with one SID — partial success: SMS sent, WhatsApp failure
recorded, overall success true. -/
theorem c5_dispatch_independent_channels_witness :
    ("Error WhatsApp: down" ∈
      (send_earthquake_alert true true true true (.raised "down")
        (.ok ["SM1"])).errors) ∧
    (send_earthquake_alert true true true true (.raised "down")
      (.ok ["SM1"])).sms_sent = true ∧
    (send_earthquake_alert true true true true (.raised "down")
      (.ok ["SM1"])).success = true := by
  have h := c5_dispatch_independent_channels true true true true
    (.raised "down") (.ok ["SM1"])
  refine ⟨h.2.2.2.1 "down" rfl rfl rfl, ?_, ?_⟩
  · exact (h.2.2.2.2.2 ["SM1"] rfl rfl rfl (by decide)).1
  · exact (h.2.2.2.2.2 ["SM1"] rfl rfl rfl (by decide)).2

end Wave
